import Mathlib

/-!
Verification development for the unmute auto-connect device supervisor.

This file gives a shallow embedding of the device connection manager
(`unmute/device_manager.py`), the device configuration registry
(`unmute/remote_devices.py`) and the manual-reconnect endpoint
(`unmute/main_auto_connect.py`), and proves/refutes the specification
claims about them.

Modelling conventions:
- The asynchronous Python code is embedded as pure state-passing
  functions.  External effects (websocket sends, handler start-up,
  sleeps, cleanup actions) are recorded in an explicit event trace.
- Nondeterministic outcomes of external calls (did the transport
  connect, did `start_up` raise, what does the handler emit, ...) are
  supplied by an explicit environment value.
- Python object identity (the `UnmuteHandler`, the `sphn` opus stream
  states, and the websocket) is modelled by natural-number identifiers
  drawn from a strictly increasing supply, so "a brand-new object" means
  "an identifier never used before".
- Python exceptions are modelled with `Except`: a function that may
  raise returns `Except Err α`; a swallowed exception simply does not
  appear in the result.
- The Python `float` durations are modelled as rationals.
-/

namespace Unmute

/-! ## Data model: `RemoteDevice` (remote_devices.py) -/

/-- Configuration record for a single remote device
(`RemoteDevice` in `unmute/remote_devices.py`). -/
structure RemoteDevice where
  name : String
  host : String
  port : Nat
  voice : String
  instructions : List (String × String)
  auto_reconnect : Bool
  reconnect_delay : Rat
  enabled : Bool
deriving DecidableEq

/-- Configuration for all remote devices
(`RemoteDevicesConfig` in `unmute/remote_devices.py`). -/
structure RemoteDevicesConfig where
  devices : List RemoteDevice
deriving DecidableEq

/-- `RemoteDevicesConfig.get_enabled_devices`. -/
def RemoteDevicesConfig.get_enabled_devices (cfg : RemoteDevicesConfig) :
    List RemoteDevice :=
  cfg.devices.filter (fun d => d.enabled)

/-! ## Wire messages and events -/

/-- Outbound wire messages sent on the websocket by the backend. -/
inductive WireMsg
  /-- `session.update` carrying voice, instructions and the
  `allow_recording` flag (`ora.SessionUpdate`). -/
  | sessionUpdate (voice : String) (instructions : List (String × String))
      (allow_recording : Bool)
  /-- A structured server control event forwarded verbatim from the
  handler (`ora.ServerEvent`, serialized as JSON). -/
  | serverEvent (payload : String)
  /-- `response.audio.delta` carrying one base64 opus chunk. -/
  | responseAudioDelta (delta : String)
deriving DecidableEq

/-- Is this wire message the session-configuration control message? -/
def WireMsg.isSessionConfig : WireMsg → Bool
  | .sessionUpdate _ _ _ => true
  | _ => false

/-- Does this wire message carry audio? -/
def WireMsg.isAudioBearing : WireMsg → Bool
  | .responseAudioDelta _ => true
  | _ => false

/-- Observable events of one device connection, in the order they
happen.  These record the side effects of the Python coroutines. -/
inductive Event
  /-- An attempt to open the websocket transport. -/
  | connectAttempt
  /-- `self.handler = UnmuteHandler()`: a fresh handler with this id. -/
  | newHandler (id : Nat)
  /-- `await self.handler.start_up()`. -/
  | startUp (id : Nat)
  /-- `await self.websocket.send(...)` of a wire message. -/
  | sendMsg (m : WireMsg)
  /-- Assignment to `self.connected`. -/
  | setConnected (b : Bool)
  /-- `_handle_connection` starts the duplex receive/emit loops. -/
  | runLoops
  /-- `await asyncio.sleep(reconnect_delay)` before a retry. -/
  | sleepRetry (d : Rat)
  /-- `self.connection_task.cancel()` inside `stop`. -/
  | cancelTask
  /-- `await self.websocket.close()` inside `_cleanup`. -/
  | closeTransport
  /-- `await self.handler.cleanup()` inside `_cleanup`. -/
  | handlerCleanup
deriving DecidableEq

/-- The wire message sent by an event, if it sends one. -/
def eventSent : Event → Option WireMsg
  | .sendMsg m => some m
  | _ => none

/-- All wire messages sent in a trace, in order. -/
def sentMsgs (t : List Event) : List WireMsg :=
  t.filterMap eventSent

/-- Recognize the `connected := true` transition in a trace. -/
def Event.isConnectedTrue : Event → Bool
  | .setConnected true => true
  | _ => false

/-- Recognize the start of the duplex loops in a trace. -/
def Event.isRunLoops : Event → Bool
  | .runLoops => true
  | _ => false

/-- Recognize a transport connect attempt. -/
def Event.isConnectAttempt : Event → Bool
  | .connectAttempt => true
  | _ => false

/-- Recognize a backoff sleep. -/
def Event.isSleepRetry : Event → Bool
  | .sleepRetry _ => true
  | _ => false

/-- The portion of a trace strictly before the first event satisfying
`p` (the whole trace when no event satisfies `p`). -/
def beforeFirst (p : Event → Bool) (t : List Event) : List Event :=
  t.takeWhile (fun e => !(p e))

/-- Number of transport connect attempts in a trace. -/
def attemptsIn (t : List Event) : Nat :=
  t.countP Event.isConnectAttempt

/-- Number of backoff sleeps in a trace. -/
def sleepsIn (t : List Event) : Nat :=
  t.countP Event.isSleepRetry

/-- Every backoff sleep in the trace sleeps exactly `d` seconds. -/
def SleepsExactly (d : Rat) (t : List Event) : Prop :=
  ∀ d', Event.sleepRetry d' ∈ t → d' = d

/-! ## `DeviceConnection` state (device_manager.py) -/

/-- State of the `asyncio.Task` referenced by `connection_task`. -/
inductive TaskState
  | running
  | done
deriving DecidableEq

/-- Mutable state of one `DeviceConnection`.  Handles (`websocket`,
`handler`) and the opus stream states are identifiers from the fresh
supply; `none` models a Python `None` reference. -/
structure DeviceConnection where
  device : RemoteDevice
  websocket : Option Nat
  handler : Option Nat
  connected : Bool
  should_reconnect : Bool
  connection_task : Option TaskState
  /-- `sphn.OpusStreamReader` created in `__init__`. -/
  opus_reader : Nat
  /-- `sphn.OpusStreamWriter` created in `__init__`. -/
  opus_writer : Nat
deriving DecidableEq

/-- `DeviceConnection.__init__`: allocates the two opus stream states
from the fresh supply `σ` and returns the new supply. -/
def DeviceConnection.init (device : RemoteDevice) (σ : Nat) :
    DeviceConnection × Nat :=
  ({ device := device
     websocket := none
     handler := none
     connected := false
     should_reconnect := true
     connection_task := none
     opus_reader := σ
     opus_writer := σ + 1 }, σ + 2)

/-- The session-configuration message built by `_configure_session`:
`ora.SessionUpdate(session=ora.SessionConfig(instructions=...,
voice=..., allow_recording=False))`. -/
def configMsg (d : RemoteDevice) : WireMsg :=
  .sessionUpdate d.voice d.instructions false

/-! ## One connect attempt: `_connect_and_handle` -/

/-- Outcome of `asyncio.wait_for(websockets.connect(...))`. -/
inductive ConnectOutcome
  | timeout
  | connectError
  | ok
deriving DecidableEq

/-- How `_handle_connection` ends once the duplex loops ran:
normally (including a caught `ConnectionClosed`) or by raising. -/
inductive LoopOutcome
  | normal
  | raised
deriving DecidableEq

/-- Messages the duplex phase may send.  The emit loop only ever sends
serialized server events and `response.audio.delta` messages, never a
`session.update`. -/
inductive LoopMsg
  | event (payload : String)
  | audioDelta (delta : String)
deriving DecidableEq

/-- Wire form of a duplex-phase message. -/
def LoopMsg.toWire : LoopMsg → WireMsg
  | .event p => .serverEvent p
  | .audioDelta d => .responseAudioDelta d

/-- Errors that `_connect_and_handle` can raise. -/
inductive ConnErr
  | timeout
  | connectFailed
  | startupFailed
  | configSendFailed
  | loopFailed
deriving DecidableEq

/-- Environment resolving the external nondeterminism of one connect
attempt. `stopDuring` records whether `stop()` cleared
`should_reconnect` while the attempt was in flight. -/
structure AttemptEnv where
  connect : ConnectOutcome
  startupOk : Bool
  configSendOk : Bool
  loopSends : List LoopMsg
  loopOutcome : LoopOutcome
  stopDuring : Bool

/-- Result of one connect attempt: the connection state after the
`finally` block, the remaining fresh supply, the event trace, and
whether the coroutine returned or raised. -/
structure AttemptResult where
  state : DeviceConnection
  fresh : Nat
  trace : List Event
  result : Except ConnErr Unit

/-- `true` iff the computation returned rather than raised. -/
def exceptOk : Except ε α → Bool
  | .ok _ => true
  | .error _ => false

/-- `DeviceConnection._connect_and_handle`.  On a transport failure the
old `websocket`/`handler` references are left as they were (the
assignments never ran); on success the websocket and a *fresh*
`UnmuteHandler` are assigned, `start_up` runs, the session-configuration
message is sent, `connected` is set, and the duplex loops run.  The
`finally` block always resets `connected := false`. -/
def connect_and_handle (c : DeviceConnection) (env : AttemptEnv) (σ : Nat) :
    AttemptResult :=
  match env.connect with
  | .timeout =>
      { state := { c with connected := false }
        fresh := σ
        trace := [.connectAttempt, .setConnected false]
        result := .error .timeout }
  | .connectError =>
      { state := { c with connected := false }
        fresh := σ
        trace := [.connectAttempt, .setConnected false]
        result := .error .connectFailed }
  | .ok =>
      let c1 := { c with websocket := some σ, handler := some (σ + 1) }
      if env.startupOk = false then
        { state := { c1 with connected := false }
          fresh := σ + 2
          trace := [.connectAttempt, .newHandler (σ + 1), .startUp (σ + 1),
                    .setConnected false]
          result := .error .startupFailed }
      else if env.configSendOk = false then
        { state := { c1 with connected := false }
          fresh := σ + 2
          trace := [.connectAttempt, .newHandler (σ + 1), .startUp (σ + 1),
                    .setConnected false]
          result := .error .configSendFailed }
      else
        { state := { c1 with connected := false }
          fresh := σ + 2
          trace := [.connectAttempt, .newHandler (σ + 1), .startUp (σ + 1),
                    .sendMsg (configMsg c.device), .setConnected true,
                    .runLoops]
                   ++ env.loopSends.map (fun m => Event.sendMsg m.toWire)
                   ++ [.setConnected false]
          result :=
            match env.loopOutcome with
            | .normal => .ok ()
            | .raised => .error .loopFailed }

/-! ## Cleanup, stop, start -/

/-- `DeviceConnection._cleanup`.  Closes the websocket if set and tears
down the handler if set, swallows any exception either raises (the
Boolean parameters say whether they would raise; the result does not
depend on them), and nulls out both references.  It returns plainly —
it cannot raise. -/
def cleanup (closeRaises handlerRaises : Bool) (c : DeviceConnection) :
    DeviceConnection × List Event :=
  let p1 :=
    match c.websocket with
    | some _ =>
        -- try: await self.websocket.close() except Exception: pass
        let _ := closeRaises
        ({ c with websocket := none }, [Event.closeTransport])
    | none => (c, ([] : List Event))
  let p2 :=
    match p1.1.handler with
    | some _ =>
        -- try: await self.handler.cleanup() except Exception: pass
        let _ := handlerRaises
        ({ p1.1 with handler := none }, [Event.handlerCleanup])
    | none => (p1.1, ([] : List Event))
  (p2.1, p1.2 ++ p2.2)

/-- `DeviceConnection.stop`.  Clears `should_reconnect` and `connected`,
cancels the connection task if one is running and awaits it (swallowing
`CancelledError`; the finished task object stays referenced), then runs
`_cleanup`. -/
def stop (closeRaises handlerRaises : Bool) (c : DeviceConnection) :
    DeviceConnection × List Event :=
  let c0 := { c with should_reconnect := false, connected := false }
  let p1 :=
    match c0.connection_task with
    | some TaskState.running =>
        ({ c0 with connection_task := some TaskState.done },
         [Event.cancelTask])
    | _ => (c0, ([] : List Event))
  let p2 := cleanup closeRaises handlerRaises p1.1
  (p2.1, p1.2 ++ p2.2)

/-- `DeviceConnection.start`.  Sets `should_reconnect := True` and
creates the connection-loop task. -/
def start (c : DeviceConnection) : DeviceConnection :=
  { c with should_reconnect := true
           connection_task := some TaskState.running }

/-! ## The reconnect loop: `_connection_loop` -/

/-- Result of running the connection loop for a bounded number of
iterations. `halted = true` means the loop reached its `break`/exit and
ran the final cleanup; `halted = false` means the iteration budget ran
out with the loop still going (the real loop is unbounded). -/
structure LoopRun where
  state : DeviceConnection
  fresh : Nat
  trace : List Event
  halted : Bool

/-- `DeviceConnection._connection_loop`, run for at most `fuel`
iterations; `envs k` resolves the externals of the `k`-th attempt.
Each iteration runs `_connect_and_handle` with any exception caught and
logged; then, if `should_reconnect` and the device's `auto_reconnect`
both still hold, it sleeps `reconnect_delay` and retries, else it
breaks; the final cleanup runs when the loop exits. -/
def connection_loop :
    Nat → DeviceConnection → (Nat → AttemptEnv) → Nat → LoopRun
  | 0, c, _, σ => ⟨c, σ, [], false⟩
  | fuel + 1, c, envs, σ =>
      if c.should_reconnect then
        let a := connect_and_handle c (envs 0) σ
        -- a concurrent stop() during the attempt clears the flags
        let c1 := if (envs 0).stopDuring then
                    { a.state with should_reconnect := false,
                                   connected := false }
                  else a.state
        if c1.should_reconnect && c1.device.auto_reconnect then
          let r := connection_loop fuel c1 (fun k => envs (k + 1)) a.fresh
          ⟨r.state, r.fresh,
           a.trace ++ Event.sleepRetry c1.device.reconnect_delay :: r.trace,
           r.halted⟩
        else
          let p := cleanup false false c1
          ⟨p.1, a.fresh, a.trace ++ p.2, true⟩
      else
        let p := cleanup false false c
        ⟨p.1, σ, p.2, true⟩

/-! ## The outbound loop: `_emit_loop` / `_send_to_device` -/

/-- A non-null emission produced by `handler.emit()`. -/
inductive Emission
  /-- An `ora.ServerEvent`; `sendOk` says whether `websocket.send`
  succeeds for it. -/
  | event (payload : String) (sendOk : Bool)
  /-- A raw audio buffer: `encodeOk` says whether the opus encoder
  raises, `opusBytes` is the (possibly empty, i.e. `none`) encoded
  frame, `sendOk` whether sending the wrapped delta succeeds. -/
  | audio (encodeOk : Bool) (opusBytes : Option String) (sendOk : Bool)
deriving DecidableEq

/-- One iteration's worth of `handler.emit()` behaviour. -/
inductive EmitStep
  /-- `emit()` returned `None`. -/
  | emitsNothing
  /-- `emit()` itself raised. -/
  | emitRaised
  /-- `emit()` returned an emission. -/
  | emits (e : Emission)
deriving DecidableEq

/-- Errors `_send_to_device` can raise. -/
inductive SendErr
  | sendFailed
  | encodeFailed
deriving DecidableEq

/-- `DeviceConnection._send_to_device`: a server event is serialized
and sent verbatim; an audio buffer is encoded (an encoder exception is
re-raised) and, when the encoder produced non-empty bytes, wrapped in a
`response.audio.delta` and sent.  A send failure is re-raised. -/
def send_to_device : Emission → Except SendErr (Option WireMsg)
  | .event p true => .ok (some (.serverEvent p))
  | .event _ false => .error .sendFailed
  | .audio false _ _ => .error .encodeFailed
  | .audio true none _ => .ok none
  | .audio true (some d) true => .ok (some (.responseAudioDelta d))
  | .audio true (some _) false => .error .sendFailed

/-- `DeviceConnection._emit_loop`, run on a finite script of emit
steps (the script ending models the loop condition turning false).
A `None` emission just continues; any exception from `emit()` or
`_send_to_device` is caught by the inner handler, logged, and the loop
`break`s — so the coroutine always returns normally; the outer
re-raising handler is unreachable. -/
def emit_loop : List EmitStep → List WireMsg × Except SendErr Unit
  | [] => ([], .ok ())
  | EmitStep.emitsNothing :: rest => emit_loop rest
  | EmitStep.emitRaised :: _ => ([], .ok ())
  | EmitStep.emits e :: rest =>
      match send_to_device e with
      | .ok none => emit_loop rest
      | .ok (some m) =>
          let p := emit_loop rest
          (m :: p.1, p.2)
      | .error _ => ([], .ok ())

/-- Does this emit step make the loop `break` (its send/encode/emit
raised)? -/
def EmitStep.failing : EmitStep → Bool
  | .emitRaised => true
  | .emits e =>
      match send_to_device e with
      | .error _ => true
      | .ok _ => false
  | .emitsNothing => false

/-! ## The inbound loop: `_receive_loop` -/

/-- Parsed inbound device messages (`_process_device_message`). -/
inductive DeviceMsg
  | inputAudioAppend (audio : String)
  | sessionUpdate
  | other (t : String)
deriving DecidableEq

/-- One frame arriving on the websocket. -/
inductive InFrame
  /-- `json.loads` raises `JSONDecodeError` on this frame. -/
  | malformed
  /-- Well-formed JSON; processing completes. -/
  | wellFormed (m : DeviceMsg)
  /-- Well-formed JSON but `_process_device_message` raised (caught by
  the generic per-message handler). -/
  | processingRaised (m : DeviceMsg)
deriving DecidableEq

/-- How the inbound frame stream ends.  The websockets async iterator
swallows `ConnectionClosedOK` inside `__aiter__`, so a clean close
(close code 1000/1001) ends the iteration normally; a
`ConnectionClosedError` or any other receive failure is raised out of
the iterator. -/
inductive StreamEnd
  /-- Clean close: the async-for simply ends, no exception is raised. -/
  | cleanClose
  /-- The iterator raised `ConnectionClosedError`. -/
  | closedWithError
  /-- The iterator raised some other transport exception. -/
  | transportError
deriving DecidableEq

/-- Does this stream ending let `_receive_loop` return normally?  Only
the clean close does: the two raising endings are caught and re-raised
by the loop. -/
def StreamEnd.endsOk : StreamEnd → Bool
  | .cleanClose => true
  | .closedWithError => false
  | .transportError => false

/-- Errors `_receive_loop` re-raises. -/
inductive RecvErr
  | connectionClosed
  | transportError
deriving DecidableEq

/-- The message a frame contributes to the processed sequence. -/
def InFrame.processedMsg : InFrame → Option DeviceMsg
  | .wellFormed m => some m
  | _ => none

/-- `DeviceConnection._receive_loop` over the frames delivered before
the transport ended.  Malformed JSON and per-message processing errors
are logged and skipped.  A clean close ends the async-for without an
exception, so the coroutine returns normally; a `ConnectionClosed`
error or any other transport exception is caught, logged and
re-raised. -/
def receive_loop (frames : List InFrame) (ending : StreamEnd) :
    List DeviceMsg × Except RecvErr Unit :=
  match frames with
  | [] =>
      ([], match ending with
           | .cleanClose => .ok ()
           | .closedWithError => .error .connectionClosed
           | .transportError => .error .transportError)
  | f :: rest =>
      let p := receive_loop rest ending
      match f with
      | .malformed => p
      | .processingRaised _ => p
      | .wellFormed m => (m :: p.1, p.2)

/-! ## The fleet supervisor: `DeviceManager` -/

/-- Mutable state of a `DeviceManager`. The `connections` dict is an
association list keyed by device name. -/
structure DeviceManagerState where
  config : RemoteDevicesConfig
  connections : List (String × DeviceConnection)
  running : Bool

/-- `DeviceManager.__init__`. -/
def DeviceManagerState.init (config : RemoteDevicesConfig) :
    DeviceManagerState :=
  { config := config, connections := [], running := false }

/-- `DeviceManager.get_device_count`: total counts the full configured
set, enabled counts `get_enabled_devices()`, connected counts managed
connections whose `connected` flag is true. -/
def get_device_count (m : DeviceManagerState) : Nat × Nat × Nat :=
  (m.config.devices.length,
   m.config.get_enabled_devices.length,
   (m.connections.filter (fun p => p.2.connected)).length)

/-- Dict lookup `self.connections[name]`. -/
def connLookup : List (String × DeviceConnection) → String →
    Option DeviceConnection
  | [], _ => none
  | (k, v) :: rest, name =>
      if k = name then some v else connLookup rest name

/-- Dict overwrite of an existing key. -/
def connUpdate : List (String × DeviceConnection) → String →
    DeviceConnection → List (String × DeviceConnection)
  | [], _, _ => []
  | (k, v) :: rest, name, c =>
      if k = name then (k, c) :: rest
      else (k, v) :: connUpdate rest name c

/-- The manual-reconnect endpoint `reconnect_device` in
`unmute/main_auto_connect.py`: 404 when the name is not managed,
otherwise `await connection.stop()` then `await connection.start()` on
that same connection object. -/
def reconnect_device (m : DeviceManagerState) (name : String) :
    Except Nat DeviceManagerState :=
  match connLookup m.connections name with
  | none => .error 404
  | some c =>
      let c1 := (stop false false c).1
      let c2 := start c1
      .ok { m with connections := connUpdate m.connections name c2 }

/-- The `should_reconnect` flag of the named connection after a manual
reconnect (`none` when the reconnect failed or the name vanished). -/
def reconnectedFlag (m : DeviceManagerState) (name : String) :
    Option Bool :=
  match reconnect_device m name with
  | .error _ => none
  | .ok m' => (connLookup m'.connections name).map
      (fun c => c.should_reconnect)

/-! ## Registry loading: `remote_devices.py` -/

/-- A raw device record as pydantic sees it: present fields are `some`,
absent fields fall back to the `Field` defaults, and `name`/`host` have
no default (required). -/
structure RawDevice where
  name : Option String
  host : Option String
  port : Option Nat
  voice : Option String
  instructions : Option (List (String × String))
  auto_reconnect : Option Bool
  reconnect_delay : Option Rat
  enabled : Option Bool
deriving DecidableEq

/-- A configuration source for `load_from_file`. -/
inductive ConfigSource
  /-- The path does not exist. -/
  | absent
  /-- The file exists but `json.load` fails. -/
  | invalidJson
  /-- The file parses to a device list. -/
  | json (devices : List RawDevice)

/-- Errors `load_from_file` raises. -/
inductive ConfigError
  | fileNotFound
  | jsonDecode
  | validationError
deriving DecidableEq

/-- Pydantic validation of one `RemoteDevice` record: `name` and `host`
are required; every other field has a declared default.  There is no
uniqueness or non-negativity constraint in the model. -/
def validateDevice (r : RawDevice) : Except ConfigError RemoteDevice :=
  match r.name, r.host with
  | some n, some h =>
      .ok { name := n
            host := h
            port := r.port.getD 8765
            voice := r.voice.getD "Watercooler"
            instructions := r.instructions.getD [("type", "smalltalk")]
            auto_reconnect := r.auto_reconnect.getD true
            reconnect_delay := r.reconnect_delay.getD 5
            enabled := r.enabled.getD true }
  | _, _ => .error .validationError

/-- Pydantic validation of the device list: the first failing record
aborts the load. -/
def validateDevices : List RawDevice → Except ConfigError (List RemoteDevice)
  | [] => .ok []
  | r :: rest =>
      match validateDevice r with
      | .error e => .error e
      | .ok d =>
          match validateDevices rest with
          | .error e => .error e
          | .ok ds => .ok (d :: ds)

/-- `RemoteDevicesConfig.load_from_file`: raises on an absent path,
propagates the JSON decode error, and validates each device record. -/
def load_from_file (src : ConfigSource) :
    Except ConfigError RemoteDevicesConfig :=
  match src with
  | .absent => .error .fileNotFound
  | .invalidJson => .error .jsonDecode
  | .json raws =>
      match validateDevices raws with
      | .error e => .error e
      | .ok ds => .ok { devices := ds }

/-- The device names of a successfully loaded configuration. -/
def loadedNames (src : ConfigSource) : List String :=
  match load_from_file src with
  | .ok cfg => cfg.devices.map (fun d => d.name)
  | .error _ => []

/-- The reconnect delays of a successfully loaded configuration. -/
def loadedDelays (src : ConfigSource) : List Rat :=
  match load_from_file src with
  | .ok cfg => cfg.devices.map (fun d => d.reconnect_delay)
  | .error _ => []

/-! ## `create_example_config` -/

/-- The example registry written by `create_example_config`. -/
def example_config : RemoteDevicesConfig :=
  { devices :=
      [{ name := "living_room"
         host := "192.168.1.100"
         port := 8765
         voice := "Watercooler"
         instructions := [("type", "smalltalk")]
         auto_reconnect := true
         reconnect_delay := 5
         enabled := true },
       { name := "kitchen"
         host := "192.168.1.101"
         port := 8765
         voice := "Gertrude"
         instructions :=
           [("type", "constant"),
            ("text", "You are a helpful kitchen assistant. Keep responses brief and practical.")]
         auto_reconnect := true
         reconnect_delay := 3
         enabled := true },
       { name := "office"
         host := "192.168.1.102"
         port := 8765
         voice := "Dev (news)"
         instructions :=
           [("type", "constant"),
            ("text", "You are a professional assistant for office work. Be concise and helpful.")]
         auto_reconnect := true
         reconnect_delay := 5
         enabled := false }] }

/-- A filesystem mapping paths to configuration file contents. -/
def FileSystem := List (String × RemoteDevicesConfig)

/-- Contents stored at a path. -/
def fsRead : FileSystem → String → Option RemoteDevicesConfig
  | [], _ => none
  | (p, v) :: rest, path => if p = path then some v else fsRead rest path

/-- `open(path, 'w')` followed by a full write: replaces whatever was
at the path (creating the file when absent). -/
def fsWrite : FileSystem → String → RemoteDevicesConfig → FileSystem
  | [], path, v => [(path, v)]
  | (p, w) :: rest, path, v =>
      if p = path then (path, v) :: rest
      else (p, w) :: fsWrite rest path v

/-- `create_example_config(output_path)`: opens the target path in
write mode and dumps the example registry — unconditionally. -/
def create_example_config (fs : FileSystem) (output_path : String) :
    FileSystem :=
  fsWrite fs output_path example_config

/-! ## Specification predicates -/

/-- The connect-sequence ordering property of one attempt that
established a transport: the fresh handler is created and started
before anything is sent; exactly the session-configuration message is
sent before `connected := true` and before the duplex loops start; the
first message sent on the wire (if any) is the session-configuration
message, hence it precedes every audio-bearing message; and at most one
session-configuration message is ever sent. -/
def ConfigFirstSpec (c : DeviceConnection) (env : AttemptEnv) (σ : Nat) :
    Prop :=
  let r := connect_and_handle c env σ
  r.trace.take 3 = [Event.connectAttempt, Event.newHandler (σ + 1),
                    Event.startUp (σ + 1)]
  ∧ r.state.handler = some (σ + 1)
  ∧ (r.trace.any Event.isConnectedTrue = true →
      sentMsgs (beforeFirst Event.isConnectedTrue r.trace)
        = [configMsg c.device])
  ∧ (r.trace.any Event.isRunLoops = true →
      sentMsgs (beforeFirst Event.isRunLoops r.trace)
        = [configMsg c.device])
  ∧ (r.trace.any Event.isConnectedTrue = false → sentMsgs r.trace = [])
  ∧ ((sentMsgs r.trace).head? = some (configMsg c.device)
      ∨ sentMsgs r.trace = [])
  ∧ (sentMsgs r.trace).countP WireMsg.isSessionConfig ≤ 1

/-- With `auto_reconnect = false` the loop makes one attempt, never
sleeps, and halts. -/
def LoopNoRetrySpec (c : DeviceConnection) (envs : Nat → AttemptEnv)
    (σ fuel : Nat) : Prop :=
  (connection_loop fuel c envs σ).halted = true
  ∧ attemptsIn (connection_loop fuel c envs σ).trace = 1
  ∧ sleepsIn (connection_loop fuel c envs σ).trace = 0

/-- With `auto_reconnect = true` and no `stop()`, the loop never halts:
for every iteration budget it makes that many attempts, sleeping
exactly `reconnect_delay` between consecutive ones. -/
def LoopRetriesForeverSpec (c : DeviceConnection)
    (envs : Nat → AttemptEnv) (σ fuel : Nat) : Prop :=
  (connection_loop fuel c envs σ).halted = false
  ∧ attemptsIn (connection_loop fuel c envs σ).trace = fuel
  ∧ sleepsIn (connection_loop fuel c envs σ).trace = fuel
  ∧ SleepsExactly c.device.reconnect_delay
      (connection_loop fuel c envs σ).trace

/-- A `stop()` observed during the first attempt halts the loop after
that single attempt. -/
def LoopStoppedSpec (c : DeviceConnection) (envs : Nat → AttemptEnv)
    (σ fuel : Nat) : Prop :=
  (connection_loop fuel c envs σ).halted = true
  ∧ attemptsIn (connection_loop fuel c envs σ).trace = 1

/-! ## Concrete sample values (used by witnesses and counterexamples) -/

/-- A sample enabled device with auto-reconnect. -/
def dev0 : RemoteDevice :=
  { name := "dev0"
    host := "10.0.0.1"
    port := 8765
    voice := "Watercooler"
    instructions := [("type", "smalltalk")]
    auto_reconnect := true
    reconnect_delay := 5
    enabled := true }

/-- `dev0` with auto-reconnect disabled. -/
def devNoAuto : RemoteDevice :=
  { dev0 with name := "devNoAuto", auto_reconnect := false }

/-- A freshly constructed connection to `dev0` (ids 0 and 1 go to the
opus reader and writer; the supply continues at 2). -/
def conn0 : DeviceConnection := (DeviceConnection.init dev0 0).1

/-- A freshly constructed connection to `devNoAuto`. -/
def connNoAuto : DeviceConnection := (DeviceConnection.init devNoAuto 0).1

/-- An attempt environment where everything succeeds and the duplex
phase sends one audio delta. -/
def envOk : AttemptEnv :=
  { connect := .ok
    startupOk := true
    configSendOk := true
    loopSends := [LoopMsg.audioDelta "b64opus"]
    loopOutcome := .normal
    stopDuring := false }

/-- `envOk` with a concurrent `stop()` during the attempt. -/
def envStop : AttemptEnv := { envOk with stopDuring := true }

/-- Every attempt succeeds, no stop ever arrives. -/
def envsQuiet : Nat → AttemptEnv := fun _ => envOk

/-- Every attempt succeeds, a stop arrives during the first one. -/
def envsStop : Nat → AttemptEnv := fun _ => envStop

/-- A configuration holding just `dev0`. -/
def cfg1 : RemoteDevicesConfig := { devices := [dev0] }

/-- A manager that has started its one connection. -/
def mgr0 : DeviceManagerState :=
  { config := cfg1
    connections := [("dev0", start conn0)]
    running := true }

/-- A raw record with only the required fields. -/
def rawA : RawDevice :=
  { name := some "a"
    host := some "h1"
    port := none
    voice := none
    instructions := none
    auto_reconnect := none
    reconnect_delay := none
    enabled := none }

/-- A second record with the same name as `rawA`. -/
def rawDupA : RawDevice := { rawA with host := some "h2" }

/-- A record with a negative reconnect delay. -/
def rawNeg : RawDevice :=
  { rawA with name := some "b", reconnect_delay := some (-1) }

/-- A record missing the required `host` field. -/
def rawNoHost : RawDevice := { rawA with host := none }

/-- A user's own configuration, different from the example one. -/
def myConfig : RemoteDevicesConfig := { devices := [dev0] }

/-- A filesystem already holding a configuration at `devices.json`. -/
def fs0 : FileSystem := [("devices.json", myConfig)]

/-! ## Helper lemmas -/

theorem isConnectedTrue_sendMsg (w : WireMsg) :
    Event.isConnectedTrue (Event.sendMsg w) = false := rfl

theorem isRunLoops_sendMsg (w : WireMsg) :
    Event.isRunLoops (Event.sendMsg w) = false := rfl

theorem isConnectAttempt_sendMsg (w : WireMsg) :
    Event.isConnectAttempt (Event.sendMsg w) = false := rfl

theorem isSleepRetry_sendMsg (w : WireMsg) :
    Event.isSleepRetry (Event.sendMsg w) = false := rfl

theorem sentMsgs_append (a b : List Event) :
    sentMsgs (a ++ b) = sentMsgs a ++ sentMsgs b := by
  simp [sentMsgs]

theorem sentMsgs_loopSends (l : List LoopMsg) :
    sentMsgs (l.map (fun m => Event.sendMsg m.toWire))
      = l.map LoopMsg.toWire := by
  induction l with
  | nil => rfl
  | cons x xs ih => simpa [sentMsgs, eventSent] using ih

theorem loopMsg_not_config (m : LoopMsg) :
    (LoopMsg.toWire m).isSessionConfig = false := by
  cases m <;> rfl

theorem configMsg_isSessionConfig (d : RemoteDevice) :
    (configMsg d).isSessionConfig = true := rfl

theorem countP_config_loopSends (l : List LoopMsg) :
    (l.map LoopMsg.toWire).countP WireMsg.isSessionConfig = 0 := by
  induction l with
  | nil => rfl
  | cons x xs ih => simp [List.countP_cons, loopMsg_not_config, ih]

theorem any_connected_loopSends (l : List LoopMsg) :
    (l.map (fun m => Event.sendMsg m.toWire)).any Event.isConnectedTrue
      = false := by
  induction l with
  | nil => rfl
  | cons x xs ih => simp [isConnectedTrue_sendMsg, ih]

theorem any_runLoops_loopSends (l : List LoopMsg) :
    (l.map (fun m => Event.sendMsg m.toWire)).any Event.isRunLoops
      = false := by
  induction l with
  | nil => rfl
  | cons x xs ih => simp [isRunLoops_sendMsg, ih]

theorem countP_attempt_loopSends (l : List LoopMsg) :
    (l.map (fun m => Event.sendMsg m.toWire)).countP Event.isConnectAttempt
      = 0 := by
  induction l with
  | nil => rfl
  | cons x xs ih => simp [List.countP_cons, isConnectAttempt_sendMsg, ih]

theorem countP_sleep_loopSends (l : List LoopMsg) :
    (l.map (fun m => Event.sendMsg m.toWire)).countP Event.isSleepRetry
      = 0 := by
  induction l with
  | nil => rfl
  | cons x xs ih => simp [List.countP_cons, isSleepRetry_sendMsg, ih]

theorem sleep_not_mem_loopSends (l : List LoopMsg) (d : Rat) :
    Event.sleepRetry d ∉ l.map (fun m => Event.sendMsg m.toWire) := by
  simp

/-- One connect attempt never touches the codec stream states, the
device record, `should_reconnect`, or the task reference. -/
theorem cah_fields (c : DeviceConnection) (env : AttemptEnv) (σ : Nat) :
    (connect_and_handle c env σ).state.opus_reader = c.opus_reader
    ∧ (connect_and_handle c env σ).state.opus_writer = c.opus_writer
    ∧ (connect_and_handle c env σ).state.device = c.device
    ∧ (connect_and_handle c env σ).state.should_reconnect
        = c.should_reconnect
    ∧ (connect_and_handle c env σ).state.connection_task
        = c.connection_task := by
  obtain ⟨co, su, cs, ls, lo, sd⟩ := env
  cases co <;> cases su <;> cases cs <;> simp [connect_and_handle]

theorem cah_trace_attempts (c : DeviceConnection) (env : AttemptEnv)
    (σ : Nat) :
    attemptsIn (connect_and_handle c env σ).trace = 1 := by
  obtain ⟨co, su, cs, ls, lo, sd⟩ := env
  cases co <;> cases su <;> cases cs <;>
    simp [connect_and_handle, attemptsIn, List.countP_cons,
          List.countP_append, countP_attempt_loopSends,
          Event.isConnectAttempt]

theorem cah_trace_sleeps (c : DeviceConnection) (env : AttemptEnv)
    (σ : Nat) :
    sleepsIn (connect_and_handle c env σ).trace = 0 := by
  obtain ⟨co, su, cs, ls, lo, sd⟩ := env
  cases co <;> cases su <;> cases cs <;>
    simp [connect_and_handle, sleepsIn, List.countP_cons,
          List.countP_append, countP_sleep_loopSends, Event.isSleepRetry]

theorem cah_trace_no_sleep (c : DeviceConnection) (env : AttemptEnv)
    (σ : Nat) (d : Rat) :
    Event.sleepRetry d ∉ (connect_and_handle c env σ).trace := by
  obtain ⟨co, su, cs, ls, lo, sd⟩ := env
  cases co <;> cases su <;> cases cs <;>
    simp [connect_and_handle]

theorem cleanup_fields (f g : Bool) (c : DeviceConnection) :
    (cleanup f g c).1.websocket = none
    ∧ (cleanup f g c).1.handler = none
    ∧ (cleanup f g c).1.device = c.device
    ∧ (cleanup f g c).1.should_reconnect = c.should_reconnect
    ∧ (cleanup f g c).1.connected = c.connected
    ∧ (cleanup f g c).1.connection_task = c.connection_task
    ∧ (cleanup f g c).1.opus_reader = c.opus_reader
    ∧ (cleanup f g c).1.opus_writer = c.opus_writer := by
  cases hw : c.websocket <;> cases hh : c.handler <;>
    simp [cleanup, hw, hh]

theorem cleanup_trace (f g : Bool) (c : DeviceConnection) :
    (cleanup f g c).2
      = (if c.websocket.isSome then [Event.closeTransport] else [])
        ++ (if c.handler.isSome then [Event.handlerCleanup] else []) := by
  cases hw : c.websocket <;> cases hh : c.handler <;>
    simp [cleanup, hw, hh]

theorem cleanup_trace_attempts (f g : Bool) (c : DeviceConnection) :
    attemptsIn (cleanup f g c).2 = 0 := by
  cases hw : c.websocket <;> cases hh : c.handler <;>
    simp [cleanup, hw, hh, attemptsIn, List.countP_cons,
          Event.isConnectAttempt]

theorem cleanup_trace_sleeps (f g : Bool) (c : DeviceConnection) :
    sleepsIn (cleanup f g c).2 = 0 := by
  cases hw : c.websocket <;> cases hh : c.handler <;>
    simp [cleanup, hw, hh, sleepsIn, List.countP_cons, Event.isSleepRetry]

theorem cleanup_trace_no_sleep (f g : Bool) (c : DeviceConnection)
    (d : Rat) :
    Event.sleepRetry d ∉ (cleanup f g c).2 := by
  cases hw : c.websocket <;> cases hh : c.handler <;>
    simp [cleanup, hw, hh]

/-! ## C1: the connect sequence sends the session configuration first -/

/-- C1. For every connection attempt that establishes a transport, the
connect sequence instantiates a fresh `SessionHandler`, runs its
start-up, and sends exactly one session-configuration control message
before `connected := true` and before either duplex loop starts; the
first message sent on a successful connect is the session-configuration
message, preceding any audio-bearing message. -/
theorem connect_sequence_config_first (c : DeviceConnection)
    (env : AttemptEnv) (σ : Nat)
    (hconn : env.connect = ConnectOutcome.ok) :
    ConfigFirstSpec c env σ := by
  obtain ⟨co, su, cs, ls, lo, sd⟩ := env
  simp only at hconn
  subst hconn
  unfold ConfigFirstSpec
  cases su <;> cases cs <;>
    simp [connect_and_handle, sentMsgs, beforeFirst, eventSent,
          Event.isConnectedTrue, Event.isRunLoops, isConnectedTrue_sendMsg,
          isRunLoops_sendMsg, any_connected_loopSends, any_runLoops_loopSends,
          sentMsgs_loopSends, List.countP_cons, List.countP_append,
          countP_config_loopSends, configMsg_isSessionConfig,
          loopMsg_not_config]

/-- C1 witness: a concrete successful connect attempt. -/
theorem connect_sequence_config_first_witness :
    envOk.connect = ConnectOutcome.ok ∧ ConfigFirstSpec conn0 envOk 2 :=
  ⟨rfl, connect_sequence_config_first conn0 envOk 2 rfl⟩

/-! ## C2: fresh handler, but the codec streams persist -/

theorem cah_opus_reader (c : DeviceConnection) (env : AttemptEnv)
    (σ : Nat) :
    (connect_and_handle c env σ).state.opus_reader = c.opus_reader :=
  (cah_fields c env σ).1

theorem cah_opus_writer (c : DeviceConnection) (env : AttemptEnv)
    (σ : Nat) :
    (connect_and_handle c env σ).state.opus_writer = c.opus_writer :=
  (cah_fields c env σ).2.1

theorem cah_device (c : DeviceConnection) (env : AttemptEnv) (σ : Nat) :
    (connect_and_handle c env σ).state.device = c.device :=
  (cah_fields c env σ).2.2.1

theorem cah_should_reconnect (c : DeviceConnection) (env : AttemptEnv)
    (σ : Nat) :
    (connect_and_handle c env σ).state.should_reconnect
      = c.should_reconnect :=
  (cah_fields c env σ).2.2.2.1

theorem cleanup_opus_reader (f g : Bool) (c : DeviceConnection) :
    (cleanup f g c).1.opus_reader = c.opus_reader :=
  (cleanup_fields f g c).2.2.2.2.2.2.1

theorem cleanup_opus_writer (f g : Bool) (c : DeviceConnection) :
    (cleanup f g c).1.opus_writer = c.opus_writer :=
  (cleanup_fields f g c).2.2.2.2.2.2.2

/-- The connection loop never replaces the opus reader state. -/
theorem loop_opus_reader (fuel : Nat) :
    ∀ (c : DeviceConnection) (envs : Nat → AttemptEnv) (σ : Nat),
    (connection_loop fuel c envs σ).state.opus_reader = c.opus_reader := by
  induction fuel with
  | zero => intro c envs σ; rfl
  | succ n ih =>
    intro c envs σ
    simp only [connection_loop]
    split
    · split <;> (try split) <;>
        simp [ih, cah_opus_reader, cleanup_opus_reader]
    · simp [cleanup_opus_reader]

/-- The connection loop never replaces the opus writer state. -/
theorem loop_opus_writer (fuel : Nat) :
    ∀ (c : DeviceConnection) (envs : Nat → AttemptEnv) (σ : Nat),
    (connection_loop fuel c envs σ).state.opus_writer = c.opus_writer := by
  induction fuel with
  | zero => intro c envs σ; rfl
  | succ n ih =>
    intro c envs σ
    simp only [connection_loop]
    split
    · split <;> (try split) <;>
        simp [ih, cah_opus_writer, cleanup_opus_writer]
    · simp [cleanup_opus_writer]

/-- A successful attempt assigns the freshly allocated handler id and
advances the supply past it. -/
theorem cah_ok_handler (c : DeviceConnection) (env : AttemptEnv) (σ : Nat)
    (h : env.connect = ConnectOutcome.ok) :
    (connect_and_handle c env σ).state.handler = some (σ + 1)
    ∧ (connect_and_handle c env σ).fresh = σ + 2 := by
  obtain ⟨co, su, cs, ls, lo, sd⟩ := env
  simp only at h
  subst h
  cases su <;> cases cs <;> simp [connect_and_handle]

/-- C2 counterexample: on two successive successful connect attempts of
the same `DeviceConnection` (chained exactly as `_connection_loop`
chains them, and also through `connection_loop` itself), the second
attempt reuses the very same opus reader and writer states created in
`__init__` — they are not brand-new — while the `SessionHandler` is a
distinct fresh instance each time. -/
theorem session_codec_reuse_counterexample :
    (connect_and_handle conn0 envOk 2).state.opus_reader
        = conn0.opus_reader
    ∧ (connect_and_handle (connect_and_handle conn0 envOk 2).state envOk
         (connect_and_handle conn0 envOk 2).fresh).state.opus_reader
        = (connect_and_handle conn0 envOk 2).state.opus_reader
    ∧ (connect_and_handle conn0 envOk 2).state.opus_writer
        = conn0.opus_writer
    ∧ (connect_and_handle (connect_and_handle conn0 envOk 2).state envOk
         (connect_and_handle conn0 envOk 2).fresh).state.opus_writer
        = (connect_and_handle conn0 envOk 2).state.opus_writer
    ∧ (connection_loop 2 conn0 envsQuiet 2).state.opus_reader
        = conn0.opus_reader
    ∧ (connection_loop 2 conn0 envsQuiet 2).state.opus_writer
        = conn0.opus_writer
    ∧ (connect_and_handle conn0 envOk 2).state.handler = some 3
    ∧ (connect_and_handle (connect_and_handle conn0 envOk 2).state envOk
         (connect_and_handle conn0 envOk 2).fresh).state.handler
        = some 5 := by
  decide

/-- C2 amended: every reconnect attempt gets a brand-new
`SessionHandler` (a handler id fresh from the strictly increasing
supply, so two successive attempts never share one), but the codec
stream states are created once in `__init__` and are never replaced by
a connect attempt or by the reconnect loop. -/
theorem fresh_handler_persistent_codec (c : DeviceConnection)
    (env env' : AttemptEnv) (envs : Nat → AttemptEnv) (σ fuel : Nat) :
    ((connect_and_handle c env σ).state.opus_reader = c.opus_reader
      ∧ (connect_and_handle c env σ).state.opus_writer = c.opus_writer)
    ∧ ((connection_loop fuel c envs σ).state.opus_reader = c.opus_reader
      ∧ (connection_loop fuel c envs σ).state.opus_writer = c.opus_writer)
    ∧ (env.connect = ConnectOutcome.ok →
        (connect_and_handle c env σ).state.handler = some (σ + 1)
        ∧ (connect_and_handle c env σ).fresh = σ + 2)
    ∧ (env.connect = ConnectOutcome.ok → env'.connect = ConnectOutcome.ok →
        (connect_and_handle (connect_and_handle c env σ).state env'
           (connect_and_handle c env σ).fresh).state.handler
          ≠ (connect_and_handle c env σ).state.handler) := by
  refine ⟨⟨cah_opus_reader c env σ, cah_opus_writer c env σ⟩,
          ⟨loop_opus_reader fuel c envs σ, loop_opus_writer fuel c envs σ⟩,
          fun h => cah_ok_handler c env σ h, fun h h' => ?_⟩
  rw [(cah_ok_handler c env σ h).1, (cah_ok_handler c env σ h).2,
      (cah_ok_handler _ env' (σ + 2) h').1]
  simp

/-- C2 witness: the two successive handlers of a concrete run differ. -/
theorem fresh_handler_persistent_codec_witness :
    envOk.connect = ConnectOutcome.ok
    ∧ (connect_and_handle (connect_and_handle conn0 envOk 2).state envOk
        (connect_and_handle conn0 envOk 2).fresh).state.handler
       ≠ (connect_and_handle conn0 envOk 2).state.handler :=
  ⟨rfl,
   (fresh_handler_persistent_codec conn0 envOk envOk envsQuiet 2 1).2.2.2
     rfl rfl⟩

/-! ## C3: the reconnect policy -/

theorem attemptsIn_append (a b : List Event) :
    attemptsIn (a ++ b) = attemptsIn a + attemptsIn b := by
  simp [attemptsIn, List.countP_append]

theorem sleepsIn_append (a b : List Event) :
    sleepsIn (a ++ b) = sleepsIn a + sleepsIn b := by
  simp [sleepsIn, List.countP_append]

theorem attemptsIn_sleep_cons (d : Rat) (t : List Event) :
    attemptsIn (Event.sleepRetry d :: t) = attemptsIn t := by
  simp [attemptsIn, List.countP_cons, Event.isConnectAttempt]

theorem sleepsIn_sleep_cons (d : Rat) (t : List Event) :
    sleepsIn (Event.sleepRetry d :: t) = sleepsIn t + 1 := by
  simp [sleepsIn, List.countP_cons, Event.isSleepRetry]

/-- `auto_reconnect = false`: one attempt, no sleep, loop halts. -/
theorem loop_no_retry (c : DeviceConnection) (envs : Nat → AttemptEnv)
    (σ fuel : Nat) (h1 : c.should_reconnect = true)
    (h2 : c.device.auto_reconnect = false) (hf : 1 ≤ fuel) :
    LoopNoRetrySpec c envs σ fuel := by
  obtain ⟨m, rfl⟩ : ∃ m, fuel = m + 1 := ⟨fuel - 1, by omega⟩
  have hdev := cah_device c (envs 0) σ
  have hsr := cah_should_reconnect c (envs 0) σ
  have hA := cah_trace_attempts c (envs 0) σ
  have hS := cah_trace_sleeps c (envs 0) σ
  unfold LoopNoRetrySpec
  cases hstop : (envs 0).stopDuring <;>
    simp [connection_loop, h1, hstop, hdev, hsr, h2, attemptsIn_append,
          sleepsIn_append, hA, hS, cleanup_trace_attempts,
          cleanup_trace_sleeps]

/-- A stop observed during the first attempt halts the loop. -/
theorem loop_stopped (c : DeviceConnection) (envs : Nat → AttemptEnv)
    (σ fuel : Nat) (h1 : c.should_reconnect = true)
    (hstop : (envs 0).stopDuring = true) (hf : 1 ≤ fuel) :
    LoopStoppedSpec c envs σ fuel := by
  obtain ⟨m, rfl⟩ : ∃ m, fuel = m + 1 := ⟨fuel - 1, by omega⟩
  have hA := cah_trace_attempts c (envs 0) σ
  unfold LoopStoppedSpec
  simp [connection_loop, h1, hstop, attemptsIn_append, hA,
        cleanup_trace_attempts]

/-- `auto_reconnect = true` and no stop: the loop runs forever, one
attempt and one exact-`reconnect_delay` sleep per iteration. -/
theorem loop_retries_forever (fuel : Nat) :
    ∀ (c : DeviceConnection) (envs : Nat → AttemptEnv) (σ : Nat),
    c.should_reconnect = true → c.device.auto_reconnect = true →
    (∀ k, (envs k).stopDuring = false) →
    LoopRetriesForeverSpec c envs σ fuel := by
  induction fuel with
  | zero =>
    intro c envs σ h1 h2 h3
    exact ⟨rfl, rfl, rfl,
      fun d' hd' => absurd hd' (by simp [connection_loop])⟩
  | succ n ih =>
    intro c envs σ h1 h2 h3
    have hdev := cah_device c (envs 0) σ
    have hsr := cah_should_reconnect c (envs 0) σ
    obtain ⟨ha, hb, hc, hd⟩ := ih (connect_and_handle c (envs 0) σ).state
      (fun k => envs (k + 1)) (connect_and_handle c (envs 0) σ).fresh
      (by rw [hsr]; exact h1) (by rw [hdev]; exact h2)
      (fun k => h3 (k + 1))
    rw [hdev] at hd
    have heq : connection_loop (n + 1) c envs σ =
        ⟨(connection_loop n (connect_and_handle c (envs 0) σ).state
            (fun k => envs (k + 1))
            (connect_and_handle c (envs 0) σ).fresh).state,
         (connection_loop n (connect_and_handle c (envs 0) σ).state
            (fun k => envs (k + 1))
            (connect_and_handle c (envs 0) σ).fresh).fresh,
         (connect_and_handle c (envs 0) σ).trace
           ++ Event.sleepRetry c.device.reconnect_delay
             :: (connection_loop n (connect_and_handle c (envs 0) σ).state
                  (fun k => envs (k + 1))
                  (connect_and_handle c (envs 0) σ).fresh).trace,
         (connection_loop n (connect_and_handle c (envs 0) σ).state
            (fun k => envs (k + 1))
            (connect_and_handle c (envs 0) σ).fresh).halted⟩ := by
      simp [connection_loop, h1, h3 0, hsr, hdev, h2]
    unfold LoopRetriesForeverSpec
    rw [heq]
    refine ⟨ha, ?_, ?_, ?_⟩
    · rw [show (LoopRun.mk _ _ ((connect_and_handle c (envs 0) σ).trace
           ++ Event.sleepRetry c.device.reconnect_delay
             :: (connection_loop n (connect_and_handle c (envs 0) σ).state
                  (fun k => envs (k + 1))
                  (connect_and_handle c (envs 0) σ).fresh).trace) _).trace
          = _ from rfl,
          attemptsIn_append, attemptsIn_sleep_cons,
          cah_trace_attempts, hb]
      omega
    · rw [show (LoopRun.mk _ _ ((connect_and_handle c (envs 0) σ).trace
           ++ Event.sleepRetry c.device.reconnect_delay
             :: (connection_loop n (connect_and_handle c (envs 0) σ).state
                  (fun k => envs (k + 1))
                  (connect_and_handle c (envs 0) σ).fresh).trace) _).trace
          = _ from rfl,
          sleepsIn_append, sleepsIn_sleep_cons, cah_trace_sleeps, hc]
      omega
    · intro d' hd'
      simp only [] at hd'
      rcases List.mem_append.1 hd' with h | h
      · exact absurd h (cah_trace_no_sleep c (envs 0) σ d')
      · rcases List.mem_cons.1 h with h | h
        · injection h
        · exact hd d' h

/-- C3. With `auto_reconnect = false` the connection loop makes its one
attempt, never sleeps, and terminates permanently; with
`auto_reconnect = true` and no `stop()`, every iteration budget is
exhausted retrying — one attempt plus one sleep of exactly
`reconnect_delay` per iteration, unboundedly; and once `stop()` clears
`should_reconnect` during an attempt, the loop terminates. -/
theorem connection_loop_reconnect_policy (c : DeviceConnection)
    (envs : Nat → AttemptEnv) (σ fuel : Nat) :
    (c.should_reconnect = true → c.device.auto_reconnect = false →
      1 ≤ fuel → LoopNoRetrySpec c envs σ fuel)
    ∧ (c.should_reconnect = true → c.device.auto_reconnect = true →
      (∀ k, (envs k).stopDuring = false) →
      LoopRetriesForeverSpec c envs σ fuel)
    ∧ (c.should_reconnect = true → (envs 0).stopDuring = true →
      1 ≤ fuel → LoopStoppedSpec c envs σ fuel) :=
  ⟨fun h1 h2 hf => loop_no_retry c envs σ fuel h1 h2 hf,
   fun h1 h2 h3 => loop_retries_forever fuel c envs σ h1 h2 h3,
   fun h1 hs hf => loop_stopped c envs σ fuel h1 hs hf⟩

/-- C3 witness: concrete runs of all three regimes. -/
theorem connection_loop_reconnect_policy_witness :
    LoopNoRetrySpec connNoAuto envsQuiet 2 1
    ∧ LoopRetriesForeverSpec conn0 envsQuiet 2 3
    ∧ LoopStoppedSpec conn0 envsStop 2 1 :=
  ⟨(connection_loop_reconnect_policy connNoAuto envsQuiet 2 1).1
      rfl rfl (by decide),
   (connection_loop_reconnect_policy conn0 envsQuiet 2 3).2.1
      rfl rfl (fun k => rfl),
   (connection_loop_reconnect_policy conn0 envsStop 2 1).2.2
      rfl rfl (by decide)⟩

/-! ## C4: the emit loop swallows send/encode errors -/

/-- C4 counterexample: a failing send (and a failing encode) does make
the emit loop terminate, but the loop returns *normally* — the result
is `Except.ok ()`, not an error, so the failure does not propagate out
of the loop as the claim states. -/
theorem emit_error_swallowed_counterexample :
    EmitStep.failing (EmitStep.emits (Emission.event "a" false)) = true
    ∧ (emit_loop [EmitStep.emits (Emission.event "a" false)]).1 = []
    ∧ exceptOk (emit_loop [EmitStep.emits (Emission.event "a" false)]).2
        = true
    ∧ EmitStep.failing (EmitStep.emits (Emission.audio false none true))
        = true
    ∧ (emit_loop [EmitStep.emits (Emission.audio false none true)]).1 = []
    ∧ exceptOk
        (emit_loop [EmitStep.emits (Emission.audio false none true)]).2
        = true := by
  decide

/-- C4 amended: a `None` emission advances the loop without sending and
without error; the first failing send/encode (or a raising `emit()`)
terminates the loop — nothing after it is processed and the messages
sent are exactly those of the preceding steps — but the loop returns
normally in every case: the error is logged and swallowed, never
propagated. -/
theorem emit_loop_poll_and_break :
    (∀ steps, emit_loop (EmitStep.emitsNothing :: steps)
        = emit_loop steps)
    ∧ (∀ (pre : List EmitStep) (s : EmitStep) (rest : List EmitStep),
        pre.all (fun x => !(EmitStep.failing x)) = true →
        EmitStep.failing s = true →
        emit_loop (pre ++ s :: rest) = ((emit_loop pre).1, Except.ok ()))
    ∧ (∀ steps, exceptOk (emit_loop steps).2 = true) := by
  refine ⟨fun steps => rfl, ?_, ?_⟩
  · intro pre
    induction pre with
    | nil =>
      intro s rest _ hs
      cases s with
      | emitsNothing => simp [EmitStep.failing] at hs
      | emitRaised => rfl
      | emits e =>
        simp only [EmitStep.failing] at hs
        cases he : send_to_device e with
        | ok v => rw [he] at hs; simp at hs
        | error err => simp [emit_loop, he]
    | cons x pre ih =>
      intro s rest hall hs
      have hx : EmitStep.failing x = false := by
        have := List.all_eq_true.1 hall x (List.mem_cons_self x pre)
        simpa using this
      have hall' : pre.all (fun x => !(EmitStep.failing x)) = true := by
        rw [List.all_cons, Bool.and_eq_true] at hall
        exact hall.2
      cases x with
      | emitsNothing =>
        simpa [emit_loop] using ih s rest hall' hs
      | emitRaised => simp [EmitStep.failing] at hx
      | emits e =>
        cases he : send_to_device e with
        | error err => simp [EmitStep.failing, he] at hx
        | ok v =>
          cases v with
          | none =>
            simpa [emit_loop, he] using ih s rest hall' hs
          | some m =>
            have := ih s rest hall' hs
            simp [emit_loop, he, this]
  · intro steps
    induction steps with
    | nil => rfl
    | cons x rest ih =>
      cases x with
      | emitsNothing => simpa [emit_loop] using ih
      | emitRaised => rfl
      | emits e =>
        cases he : send_to_device e with
        | error err => simp [emit_loop, he, exceptOk]
        | ok v =>
          cases v with
          | none => simpa [emit_loop, he] using ih
          | some m => simpa [emit_loop, he] using ih

/-- C4 witness: one successful send, then a failing send, then an
ignored trailing step. -/
theorem emit_loop_poll_and_break_witness :
    ([EmitStep.emits (Emission.event "a" true)].all
        (fun x => !(EmitStep.failing x)) = true)
    ∧ EmitStep.failing (EmitStep.emits (Emission.event "b" false)) = true
    ∧ emit_loop ([EmitStep.emits (Emission.event "a" true)]
          ++ EmitStep.emits (Emission.event "b" false)
            :: [EmitStep.emitsNothing])
        = ((emit_loop [EmitStep.emits (Emission.event "a" true)]).1,
           Except.ok ()) :=
  ⟨by decide, by decide,
   emit_loop_poll_and_break.2.1
     [EmitStep.emits (Emission.event "a" true)]
     (EmitStep.emits (Emission.event "b" false))
     [EmitStep.emitsNothing] (by decide) (by decide)⟩

/-! ## C5: malformed JSON is non-fatal; which transport ends are fatal -/

/-- C5 counterexample: a clean transport close terminates the inbound
loop, but the loop returns *normally* — the websockets iterator
swallows `ConnectionClosedOK`, so no failure propagates.  Hence "any
transport-level close ... propagates as the loop's failure" is false at
this input. -/
theorem receive_close_propagation_counterexample :
    (receive_loop [InFrame.wellFormed DeviceMsg.sessionUpdate]
        StreamEnd.cleanClose).1 = [DeviceMsg.sessionUpdate]
    ∧ exceptOk (receive_loop [InFrame.wellFormed DeviceMsg.sessionUpdate]
        StreamEnd.cleanClose).2 = true := by
  decide

/-- C5 amended.  The inbound loop processes exactly the well-formed
frames, in arrival order — malformed JSON (and a per-message processing
error) is logged and skipped without terminating the loop, so any later
well-formed message is still processed.  A transport-level *error*
(`ConnectionClosedError` or any other receive failure) terminates the
loop and propagates as its failure, but a *clean* close terminates the
loop with a normal return: the loop fails exactly when the stream ended
with an error. -/
theorem receive_loop_malformed_nonfatal :
    ∀ (frames : List InFrame) (ending : StreamEnd),
    ((receive_loop frames ending).1
        = frames.filterMap InFrame.processedMsg)
    ∧ exceptOk (receive_loop frames ending).2 = ending.endsOk
    ∧ ∀ (pre post : List InFrame) (m : DeviceMsg),
        m ∈ (receive_loop
              (pre ++ InFrame.malformed :: InFrame.wellFormed m :: post)
              ending).1 := by
  have key : ∀ (frames : List InFrame) (ending : StreamEnd),
      ((receive_loop frames ending).1
          = frames.filterMap InFrame.processedMsg)
      ∧ exceptOk (receive_loop frames ending).2 = ending.endsOk := by
    intro frames ending
    induction frames with
    | nil => cases ending <;> exact ⟨rfl, rfl⟩
    | cons f rest ih =>
      cases f with
      | malformed =>
        simpa [receive_loop, InFrame.processedMsg] using ih
      | wellFormed m =>
        simp [receive_loop, InFrame.processedMsg, ih.1, ih.2]
      | processingRaised m =>
        simpa [receive_loop, InFrame.processedMsg] using ih
  intro frames ending
  refine ⟨(key frames ending).1, (key frames ending).2, ?_⟩
  intro pre post m
  rw [(key (pre ++ InFrame.malformed :: InFrame.wellFormed m :: post)
        ending).1]
  simp [List.filterMap_append, InFrame.processedMsg]

/-! ## C6: the fleet counts -/

/-- C6 counterexample: in a freshly constructed manager (reachable via
`DeviceManager.__init__`, before `start`), `counts().enabled` is 1 (the
enabled device in the configured set) while the managed connection map
is empty — so `enabled` is *not* the size of the managed set. -/
theorem counts_enabled_counterexample :
    (get_device_count (DeviceManagerState.init cfg1)).2.1 = 1
    ∧ (DeviceManagerState.init cfg1).connections.length = 0
    ∧ (get_device_count (DeviceManagerState.init cfg1)).2.1
        ≠ (DeviceManagerState.init cfg1).connections.length := by
  decide

/-- C6 amended: `counts()` returns `total` = size of the full
configured set, `enabled` = number of *enabled devices in the
configured set* (not the size of the managed map), and `connected` =
number of managed connections whose `connected` flag is true (which is
at most the managed-map size). -/
theorem get_device_count_spec (m : DeviceManagerState) :
    (get_device_count m).1 = m.config.devices.length
    ∧ (get_device_count m).2.1
        = (m.config.devices.filter (fun d => d.enabled)).length
    ∧ (get_device_count m).2.2
        = (m.connections.filter (fun p => p.2.connected)).length
    ∧ (get_device_count m).2.2 ≤ m.connections.length
    ∧ (get_device_count m).2.1 ≤ (get_device_count m).1 := by
  refine ⟨rfl, rfl, rfl, ?_, ?_⟩
  · exact List.length_filter_le _ m.connections
  · exact List.length_filter_le _ m.config.devices

/-! ## C7: what the registry load rejects and what it accepts -/

/-- C7 counterexample: a source with two devices of the same name, and
a source with a negative `reconnect_delay`, both load successfully —
the registry does not reject them. -/
theorem load_accepts_counterexample :
    exceptOk (load_from_file (ConfigSource.json [rawA, rawDupA])) = true
    ∧ loadedNames (ConfigSource.json [rawA, rawDupA]) = ["a", "a"]
    ∧ exceptOk (load_from_file (ConfigSource.json [rawNeg])) = true
    ∧ loadedDelays (ConfigSource.json [rawNeg]) = [(-1 : Rat)] := by
  decide

/-- C7 amended: an absent source, an unparseable source, and a schema
violation (a record missing the required `name` or `host` field) all
make the load fail with a configuration error; but duplicate device
names and negative `reconnect_delay` values are not validated and such
sources load successfully. -/
theorem load_from_file_spec :
    exceptOk (load_from_file ConfigSource.absent) = false
    ∧ exceptOk (load_from_file ConfigSource.invalidJson) = false
    ∧ ∀ (raws : List RawDevice) (r : RawDevice), r ∈ raws →
        (r.name = none ∨ r.host = none) →
        exceptOk (load_from_file (ConfigSource.json raws)) = false := by
  refine ⟨rfl, rfl, ?_⟩
  intro raws
  induction raws with
  | nil => intro r hr; exact absurd hr (List.not_mem_nil r)
  | cons x rest ih =>
    intro r hr hbad
    have hval : ∀ (s : RawDevice), (s.name = none ∨ s.host = none) →
        validateDevice s = Except.error ConfigError.validationError := by
      intro s hs
      cases hn : s.name with
      | none => cases hh : s.host <;> simp [validateDevice, hn, hh]
      | some a =>
        cases hh : s.host with
        | none => simp [validateDevice, hn, hh]
        | some b =>
          rcases hs with hs | hs
          · rw [hn] at hs; exact absurd hs (by simp)
          · rw [hh] at hs; exact absurd hs (by simp)
    rcases List.mem_cons.1 hr with rfl | hr
    · simp [load_from_file, validateDevices, hval r hbad, exceptOk]
    · cases hx : validateDevice x with
      | error e => simp [load_from_file, validateDevices, hx, exceptOk]
      | ok d =>
        have := ih r hr hbad
        simp only [load_from_file] at this ⊢
        cases hrest : validateDevices rest with
        | error e => simp [validateDevices, hx, hrest, exceptOk]
        | ok ds => rw [hrest] at this; simp [exceptOk] at this

/-- C7 witness: a record missing its `host` is rejected. -/
theorem load_from_file_spec_witness :
    (rawNoHost ∈ [rawNoHost])
    ∧ (rawNoHost.name = none ∨ rawNoHost.host = none)
    ∧ exceptOk (load_from_file (ConfigSource.json [rawNoHost])) = false :=
  ⟨List.mem_singleton.2 rfl, Or.inr rfl,
   load_from_file_spec.2.2 [rawNoHost] rawNoHost
     (List.mem_singleton.2 rfl) (Or.inr rfl)⟩

/-! ## C8: generating the example configuration overwrites -/

/-- C8 counterexample: with a configuration already present at
`devices.json`, `create_example_config` replaces it with the example
registry — the existing configuration is not left unchanged. -/
theorem create_example_overwrites_counterexample :
    fsRead fs0 "devices.json" = some myConfig
    ∧ fsRead (create_example_config fs0 "devices.json") "devices.json"
        = some example_config
    ∧ myConfig ≠ example_config := by
  decide

theorem fsRead_fsWrite_same (fs : FileSystem) (path : String)
    (v : RemoteDevicesConfig) :
    fsRead (fsWrite fs path v) path = some v := by
  induction fs with
  | nil => simp [fsWrite, fsRead]
  | cons e rest ih =>
    obtain ⟨p, w⟩ := e
    by_cases hp : p = path
    · simp [fsWrite, fsRead, hp]
    · simp [fsWrite, fsRead, hp, ih]

theorem fsRead_fsWrite_other (fs : FileSystem) (path q : String)
    (v : RemoteDevicesConfig) (hq : q ≠ path) :
    fsRead (fsWrite fs path v) q = fsRead fs q := by
  have hq' : ¬(path = q) := fun h => hq h.symm
  induction fs with
  | nil => simp [fsWrite, fsRead, hq']
  | cons e rest ih =>
    obtain ⟨p, w⟩ := e
    by_cases hp : p = path
    · subst hp
      simp [fsWrite, fsRead, hq']
    · by_cases hpq : p = q
      · simp [fsWrite, fsRead, hp, hpq, hq]
      · simp [fsWrite, fsRead, hp, hpq, ih]

/-- C8 amended: `create_example_config` unconditionally writes the
example registry to the target path — replacing whatever configuration
was there — and leaves every other path unchanged. -/
theorem create_example_config_spec (fs : FileSystem) (path q : String) :
    fsRead (create_example_config fs path) path = some example_config
    ∧ (q ≠ path →
        fsRead (create_example_config fs path) q = fsRead fs q) :=
  ⟨fsRead_fsWrite_same fs path example_config,
   fun hq => fsRead_fsWrite_other fs path q example_config hq⟩

/-- C8 witness: the overwrite at the target path and the frame
condition at another path, on a concrete filesystem. -/
theorem create_example_config_spec_witness :
    ("other.json" ≠ "devices.json")
    ∧ fsRead (create_example_config fs0 "devices.json") "devices.json"
        = some example_config
    ∧ fsRead (create_example_config fs0 "devices.json") "other.json"
        = fsRead fs0 "other.json" :=
  ⟨by decide,
   (create_example_config_spec fs0 "devices.json" "other.json").1,
   (create_example_config_spec fs0 "devices.json" "other.json").2
     (by decide)⟩

/-! ## C9: `stop` is idempotent, `_cleanup` is safe -/

/-- C9. A second `stop()` after one has completed changes nothing and
performs no cleanup side effect (and raises nothing — `stop` and
`cleanup` are total); `_cleanup` nulls out both references on every
input, closes the transport exactly when it was open and tears down the
handler exactly when it was present, is idempotent — a second call does
nothing — and its result does not depend on whether the underlying
close/teardown calls raise (those errors are swallowed). -/
theorem stop_idempotent_cleanup_safe (f g f' g' : Bool)
    (c : DeviceConnection) :
    (stop f' g' (stop f g c).1).1 = (stop f g c).1
    ∧ (stop f' g' (stop f g c).1).2 = []
    ∧ (cleanup f g c).1.websocket = none
    ∧ (cleanup f g c).1.handler = none
    ∧ (cleanup f g c).2
        = (if c.websocket.isSome then [Event.closeTransport] else [])
          ++ (if c.handler.isSome then [Event.handlerCleanup] else [])
    ∧ cleanup f' g' (cleanup f g c).1 = ((cleanup f g c).1, [])
    ∧ cleanup f g c = cleanup false false c := by
  obtain ⟨d, ws, h, cn, sr, ct, r, w⟩ := c
  refine ⟨?_, ?_, ?_, ?_, ?_, ?_, ?_⟩ <;>
    cases ws <;> cases h <;>
      (cases ct with
        | none => simp [stop, cleanup]
        | some ts => cases ts <;> simp [stop, cleanup])

/-! ## C10: `should_reconnect` is restored by `start` -/

theorem connLookup_connUpdate_same :
    ∀ (l : List (String × DeviceConnection)) (name : String)
      (c c0 : DeviceConnection),
    connLookup l name = some c0 →
    connLookup (connUpdate l name c) name = some c := by
  intro l
  induction l with
  | nil => intro name c c0 h; simp [connLookup] at h
  | cons e rest ih =>
    intro name c c0 h
    obtain ⟨k, v⟩ := e
    by_cases hk : k = name
    · simp [connLookup, connUpdate, hk]
    · simp only [connLookup, connUpdate, hk, if_neg hk, if_false] at h ⊢
      exact ih name c c0 h

/-- C10 counterexample: `stop()` clears `should_reconnect`, but a
subsequent `start()` — in particular the manual-reconnect operation,
which is `stop()` then `start()` on the same connection object — sets
it back to `true`. -/
theorem should_reconnect_reset_counterexample :
    (stop false false (start conn0)).1.should_reconnect = false
    ∧ (start (stop false false (start conn0)).1).should_reconnect = true
    ∧ reconnectedFlag mgr0 "dev0" = some true := by
  decide

/-- C10 amended: `should_reconnect` is cleared by every `stop()` and
set to `true` again by every `start()`; consequently after the
manual-reconnect operation (stop, then start, on the same managed
connection object) the flag is `true` again. -/
theorem should_reconnect_stop_start_spec (f g : Bool)
    (c : DeviceConnection) (m : DeviceManagerState) (name : String) :
    (stop f g c).1.should_reconnect = false
    ∧ (start c).should_reconnect = true
    ∧ ((connLookup m.connections name).isSome = true →
        reconnectedFlag m name = some true) := by
  refine ⟨?_, rfl, ?_⟩
  · obtain ⟨d, ws, h, cn, sr, ct, r, w⟩ := c
    cases ws <;> cases h <;>
      (cases ct with
        | none => simp [stop, cleanup]
        | some ts => cases ts <;> simp [stop, cleanup])
  · intro hsome
    cases hl : connLookup m.connections name with
    | none => rw [hl] at hsome; simp at hsome
    | some c0 =>
      have hupd := connLookup_connUpdate_same m.connections name
        (start (stop false false c0).1) c0 hl
      simp only [reconnectedFlag, reconnect_device, hl, hupd,
                 Option.map_some']
      rfl

/-- C10 witness: the managed connection `dev0` has its flag set back to
true by a manual reconnect. -/
theorem should_reconnect_stop_start_spec_witness :
    (connLookup mgr0.connections "dev0").isSome = true
    ∧ reconnectedFlag mgr0 "dev0" = some true :=
  ⟨by decide,
   (should_reconnect_stop_start_spec false false conn0 mgr0 "dev0").2.2
     (by decide)⟩

end Unmute
